import Mathlib

/-!
# FlowResume — verification of the spec against the code

Shallow embedding of the FlowResume repository (`app/ai_service.py`,
`app/db_operations.py`, `app/utils.py`) and proofs settling the frozen
claims about it.

External collaborators (the Gemini network client, `streamlit`, `json`,
`datetime`, `pdfkit`, the file system) are modelled as explicit inputs:
the outcome of each `generate_content` call is an oracle
`Nat → AttemptOutcome`, the store file is an `Option String`, timestamp
parsing is a function argument, and so on.  Everything else is translated
from the Python source; line references point into the repository files.
-/

set_option autoImplicit false
set_option linter.unusedVariables false

namespace FlowResume

/-! ## Remote call wrapper (`app/ai_service.py`, `call_gemini`, lines 15-56)

The Python loop is

```
for attempt in range(max_retries):
    try:
        ... response = model.generate_content(content, ...)
        if response and response.text: return response.text
        else: raise Exception("Empty or invalid response received from Gemini")
    except genai.types.core.ClientResponseError as e:
        if e.response.status_code == 429:
            time.sleep(2 ** attempt)
        elif e.response.status_code == 400 and "API key expired" in str(e):
            st.stop()
        else:
            if attempt == max_retries - 1: raise Exception("Failed ...")
            time.sleep(2 ** attempt)
    except Exception as e:
        if attempt == max_retries - 1: raise Exception("Failed ...")
        time.sleep(2 ** attempt)
return "Error: Unable to process request after multiple attempts."
```

The `raise Exception("Empty or invalid ...")` inside the `try` body is
caught by the `except Exception` clause of the same `try`, so an empty
response is handled exactly like a general error.
-/

/-- The Gemini response object: `response.text`.  `if response and
response.text` in the source is: the response is not `None` and its text
is non-empty. -/
structure GenResponse where
  text : String
deriving DecidableEq, Repr

/-- Outcome of one `model.generate_content` call, as seen by the wrapper:
either a response object (possibly `None`), a `ClientResponseError`
carrying `e.response.status_code`, whether `"API key expired"` occurs in
`str(e)`, and `str(e)` itself, or any other raised exception with its
message. -/
inductive AttemptOutcome where
  | response (resp : Option GenResponse)
  | clientError (status : Nat) (keyExpiredMarker : Bool) (msg : String)
  | generalError (msg : String)
deriving DecidableEq, Repr

/-- How `call_gemini` finishes: a returned string, a propagated Python
exception with its message, or the session halt issued by `st.stop()` on
the fatal-credential branch. -/
inductive CallResult where
  | text (s : String)
  | raised (msg : String)
  | halted
deriving DecidableEq, Repr

/-- Observable behaviour of one `call_gemini` invocation: its result, how
many `generate_content` calls were issued, and the list of
`time.sleep` durations (in seconds, in order). -/
structure CallTrace where
  result : CallResult
  attempts : Nat
  sleeps : List Nat
deriving DecidableEq, Repr

/-- `"Error: Unable to process request after multiple attempts."`
(line 56), returned when the `for` loop falls through. -/
def sentinelMsg : String := "Error: Unable to process request after multiple attempts."

/-- Message of the exception raised on an empty or invalid response
(line 36). -/
def emptyRespMsg : String := "Empty or invalid response received from Gemini"

/-- Message of the exhaustion exception raised on the last attempt
(lines 48 and 53). -/
def failAfterMsg (max_retries : Int) (cause : String) : String :=
  "Failed to get response from Gemini after " ++ toString max_retries ++
    " attempts: " ++ cause

/-- One unit of multimodal content (`mime_type` + base64 `data`), as
produced by `pdf_to_base64_images` in `app/utils.py`. -/
structure ContentPart where
  mime_type : String
  data : String
deriving DecidableEq, Repr

/-- The retry loop of `call_gemini`, recursing over the list of remaining
attempt indices (`range(max_retries)`).  The shared tail of the
empty-response branch, the non-429 non-fatal `ClientResponseError`
branch and the general-exception branch — raise the wrapped exhaustion
exception if `attempt == max_retries - 1`, else `time.sleep(2 ** attempt)`
and go on — is `cont`.  The 429 branch sleeps unconditionally and goes
on; the fatal branch (`status == 400` with the `"API key expired"`
marker) halts at once. -/
def call_gemini_loop (o : Nat → AttemptOutcome) (max_retries : Int) :
    List Nat → CallTrace
  | [] => ⟨.text sentinelMsg, 0, []⟩
  | attempt :: rest =>
    let cont : String → CallTrace := fun cause =>
      if (attempt : Int) = max_retries - 1 then
        ⟨.raised (failAfterMsg max_retries cause), 1, []⟩
      else
        let t := call_gemini_loop o max_retries rest
        ⟨t.result, t.attempts + 1, (2 ^ attempt) :: t.sleeps⟩
    match o attempt with
    | .response resp =>
      match resp with
      | some r => if r.text ≠ "" then ⟨.text r.text, 1, []⟩ else cont emptyRespMsg
      | none => cont emptyRespMsg
    | .clientError status keyExpired msg =>
      if status = 429 then
        let t := call_gemini_loop o max_retries rest
        ⟨t.result, t.attempts + 1, (2 ^ attempt) :: t.sleeps⟩
      else if status = 400 ∧ keyExpired then
        ⟨.halted, 1, []⟩
      else
        cont msg
    | .generalError msg => cont msg

/-- `call_gemini(prompt, pdf_content_parts, model_name, max_retries)`
(lines 15-56).  The per-attempt content list `pdf_content_parts ++
[prompt]` and the model identifier do not influence control flow, which
is driven by the oracle `o`; they are kept as arguments for fidelity.
Python's `range` of a non-positive bound is empty, which
`Int.toNat` reproduces. -/
def call_gemini (o : Nat → AttemptOutcome) (prompt : String)
    (pdf_content_parts : List ContentPart) (model_name : String)
    (max_retries : Int) : CallTrace :=
  call_gemini_loop o max_retries (List.range max_retries.toNat)

/-! ## Analysis functions (`app/ai_service.py`, lines 61-502)

Each of the twelve functions builds a prompt, issues one `call_gemini`
with the default budget `max_retries = 5`, and wraps the call in
`try ... except Exception as e: return f"Error <doing X>: {str(e)}"`.

In the embedding the long constant instruction text of each prompt is
abbreviated to its opening sentence (it carries no control flow); the
interpolation structure (job description, language, optional company
name, hiring manager, location, experience level, target role) is kept
exactly.  The `st.stop()` session halt is not a Python `Exception` in
the model (the spec treats it as a process-level halt signal), so it
propagates through the `except` clause as `.halted`. -/

/-- What an analysis function delivers to its caller: a displayable
string, or the propagated session halt. -/
inductive AnalysisOutcome where
  | display (s : String)
  | halted
deriving DecidableEq, Repr

/-- `analyze_resume(job_desc, pdf_content_parts, model_name)`
(lines 61-94). -/
def analyze_resume (o : Nat → AttemptOutcome) (job_desc : String)
    (pdf_content_parts : List ContentPart) (model_name : String) : AnalysisOutcome :=
  let prompt := "You are an experienced HR manager and career consultant. Analyze this resume thoroughly based on the following job description:\n\nJob Description:\n" ++ job_desc
  match (call_gemini o prompt pdf_content_parts model_name 5).result with
  | .text t => .display t
  | .raised e => .display ("Error analyzing resume: " ++ e)
  | .halted => .halted

/-- `get_match_score(job_desc, pdf_content_parts, model_name)`
(lines 96-132). -/
def get_match_score (o : Nat → AttemptOutcome) (job_desc : String)
    (pdf_content_parts : List ContentPart) (model_name : String) : AnalysisOutcome :=
  let prompt := "Act as an Applicant Tracking System (ATS). Analyze this resume against the job description below:\n\nJob Description:\n" ++ job_desc
  match (call_gemini o prompt pdf_content_parts model_name 5).result with
  | .text t => .display t
  | .raised e => .display ("Error calculating match score: " ++ e)
  | .halted => .halted

/-- `optimize_resume(job_desc, pdf_content_parts, language="English",
model_name='gemini-1.5-flash')` (lines 134-177). -/
def optimize_resume (o : Nat → AttemptOutcome) (job_desc : String)
    (pdf_content_parts : List ContentPart) (language : String)
    (model_name : String) : AnalysisOutcome :=
  let prompt := "You are a professional resume writer and career coach. Rewrite this resume in " ++ language ++ " to perfectly align with this job description:\n\nJob Description:\n" ++ job_desc
  match (call_gemini o prompt pdf_content_parts model_name 5).result with
  | .text t => .display t
  | .raised e => .display ("Error optimizing resume: " ++ e)
  | .halted => .halted

/-- `check_grammar(pdf_content_parts, model_name='gemini-1.5-flash')`
(lines 179-216). -/
def check_grammar (o : Nat → AttemptOutcome)
    (pdf_content_parts : List ContentPart) (model_name : String) : AnalysisOutcome :=
  let prompt := "Act as a professional editor and grammar expert. Thoroughly review this resume for:"
  match (call_gemini o prompt pdf_content_parts model_name 5).result with
  | .text t => .display t
  | .raised e => .display ("Error checking grammar: " ++ e)
  | .halted => .halted

/-- `keyword_density(job_desc, pdf_content_parts,
model_name='gemini-1.5-flash')` (lines 218-259). -/
def keyword_density (o : Nat → AttemptOutcome) (job_desc : String)
    (pdf_content_parts : List ContentPart) (model_name : String) : AnalysisOutcome :=
  let prompt := "Perform a comprehensive keyword analysis comparing this resume with the job description below:\n\nJob Description:\n" ++ job_desc
  match (call_gemini o prompt pdf_content_parts model_name 5).result with
  | .text t => .display t
  | .raised e => .display ("Error analyzing keyword density: " ++ e)
  | .halted => .halted

/-- `suggest_roles(pdf_content_parts, model_name='gemini-1.5-flash')`
(lines 261-297). -/
def suggest_roles (o : Nat → AttemptOutcome)
    (pdf_content_parts : List ContentPart) (model_name : String) : AnalysisOutcome :=
  let prompt := "Based on this resume, act as a career counselor and suggest suitable job roles."
  match (call_gemini o prompt pdf_content_parts model_name 5).result with
  | .text t => .display t
  | .raised e => .display ("Error suggesting roles: " ++ e)
  | .halted => .halted

/-- `section_check(pdf_content_parts, model_name='gemini-1.5-flash')`
(lines 299-347). -/
def section_check (o : Nat → AttemptOutcome)
    (pdf_content_parts : List ContentPart) (model_name : String) : AnalysisOutcome :=
  let prompt := "Analyze this resume for section completeness and structure. Evaluate:"
  match (call_gemini o prompt pdf_content_parts model_name 5).result with
  | .text t => .display t
  | .raised e => .display ("Error checking sections: " ++ e)
  | .halted => .halted

/-- `generate_cover_letter(job_desc, pdf_content_parts, company_name="",
hiring_manager="", model_name='gemini-1.5-flash')` (lines 349-388).
Python's `x if x else y` on a string falls back on the empty string. -/
def generate_cover_letter (o : Nat → AttemptOutcome) (job_desc : String)
    (pdf_content_parts : List ContentPart) (company_name : String)
    (hiring_manager : String) (model_name : String) : AnalysisOutcome :=
  let prompt := "Based on this resume and the job description below, write a compelling cover letter:\n\nJob Description:\n" ++ job_desc ++
    "\n\nCompany Name: " ++ (if company_name ≠ "" then company_name else "[Company Name]") ++
    "\nHiring Manager: " ++ (if hiring_manager ≠ "" then hiring_manager else "[Hiring Manager]")
  match (call_gemini o prompt pdf_content_parts model_name 5).result with
  | .text t => .display t
  | .raised e => .display ("Error generating cover letter: " ++ e)
  | .halted => .halted

/-- `salary_insights(pdf_content_parts, location="",
experience_level="", model_name='gemini-1.5-flash')` (lines 390-431). -/
def salary_insights (o : Nat → AttemptOutcome)
    (pdf_content_parts : List ContentPart) (location : String)
    (experience_level : String) (model_name : String) : AnalysisOutcome :=
  let prompt := "Based on this resume, provide salary and market insights:\n\nLocation: " ++
    (if location ≠ "" then location else "General Market") ++
    "\nExperience Level: " ++ (if experience_level ≠ "" then experience_level else "Based on Resume")
  match (call_gemini o prompt pdf_content_parts model_name 5).result with
  | .text t => .display t
  | .raised e => .display ("Error generating salary insights: " ++ e)
  | .halted => .halted

/-- `skill_gap_analysis(resume_content_parts, job_desc, model_name)`
(lines 435-459). -/
def skill_gap_analysis (o : Nat → AttemptOutcome)
    (resume_content_parts : List ContentPart) (job_desc : String)
    (model_name : String) : AnalysisOutcome :=
  let prompt := "Act as a career development specialist. Compare the provided resume content with the following job description.\n\nJob Description:\n" ++ job_desc
  match (call_gemini o prompt resume_content_parts model_name 5).result with
  | .text t => .display t
  | .raised e => .display ("Error performing skill gap analysis: " ++ e)
  | .halted => .halted

/-- `generate_interview_questions(resume_content_parts, job_desc,
model_name)` (lines 461-481). -/
def generate_interview_questions (o : Nat → AttemptOutcome)
    (resume_content_parts : List ContentPart) (job_desc : String)
    (model_name : String) : AnalysisOutcome :=
  let prompt := "You are an expert interviewer for the role described in the job description.\n\nJob Description:\n" ++ job_desc
  match (call_gemini o prompt resume_content_parts model_name 5).result with
  | .text t => .display t
  | .raised e => .display ("Error generating interview questions: " ++ e)
  | .halted => .halted

/-- `generate_branding_statement(resume_content_parts,
target_role_type="", model_name='gemini-1.5-flash')` (lines 483-502). -/
def generate_branding_statement (o : Nat → AttemptOutcome)
    (resume_content_parts : List ContentPart) (target_role_type : String)
    (model_name : String) : AnalysisOutcome :=
  let prompt := "You are a professional career coach specializing in personal branding.\n\nIf a target role type is provided (" ++ target_role_type ++ "), tailor the statements towards that. Otherwise, make them general but impactful."
  match (call_gemini o prompt resume_content_parts model_name 5).result with
  | .text t => .display t
  | .raised e => .display ("Error generating branding statement: " ++ e)
  | .halted => .halted

/-! ## Interaction log (`app/db_operations.py`)

`load_db_data` goes through `json.load`, so the store file is modelled
as an `Option String` (`none` = file missing) and `json.load` as an
executable JSON parser over the characters of the file (`none` =
`json.JSONDecodeError`).  Python values parsed from JSON are the `Json`
inductive below; integer numerals suffice for the values the store ever
holds. -/

/-- A parsed JSON value (the result of `json.load`). -/
inductive Json where
  | null
  | bool (b : Bool)
  | num (n : Int)
  | str (s : String)
  | arr (xs : List Json)
  | obj (members : List (String × Json))

/-- The character `{` (written via its code point to keep it out of the
source text). -/
def lbraceChar : Char := Char.ofNat 123

/-- The character `}`. -/
def rbraceChar : Char := Char.ofNat 125

/-- Skip JSON whitespace. -/
def jsonSkipWs : List Char → List Char
  | [] => []
  | c :: cs =>
    if c = ' ' ∨ c = '\n' ∨ c = '\t' ∨ c = '\r' then jsonSkipWs cs else c :: cs

/-- Parse the body of a JSON string after the opening quote, handling
the common escapes; returns the string and the input after the closing
quote. -/
def jsonStringBody : Nat → List Char → Option (String × List Char)
  | 0, _ => none
  | _, [] => none
  | fuel + 1, c :: cs =>
    if c = '\"' then some ("", cs)
    else if c = '\\' then
      match cs with
      | [] => none
      | e :: cs2 =>
        let dec : Option Char :=
          if e = '\"' then some '\"'
          else if e = '\\' then some '\\'
          else if e = '/' then some '/'
          else if e = 'n' then some '\n'
          else if e = 't' then some '\t'
          else if e = 'r' then some '\r'
          else none
        match dec with
        | none => none
        | some d =>
          match jsonStringBody fuel cs2 with
          | none => none
          | some (s, r) => some (String.mk (d :: s.data), r)
    else
      match jsonStringBody fuel cs with
      | none => none
      | some (s, r) => some (String.mk (c :: s.data), r)

/-- Consume a run of decimal digits, accumulating their value. -/
def jsonNatAcc : Nat → List Char → Nat → Nat × List Char
  | _, [], acc => (acc, [])
  | 0, cs, acc => (acc, cs)
  | fuel + 1, c :: cs, acc =>
    if c.isDigit then jsonNatAcc fuel cs (acc * 10 + (c.toNat - 48)) else (acc, c :: cs)

mutual

/-- Parse one JSON value (fuel-bounded recursive descent). -/
def jsonValue : Nat → List Char → Option (Json × List Char)
  | 0, _ => none
  | fuel + 1, cs =>
    match jsonSkipWs cs with
    | [] => none
    | c :: rest =>
      if c = 'n' then
        match rest with
        | 'u' :: 'l' :: 'l' :: r => some (.null, r)
        | _ => none
      else if c = 't' then
        match rest with
        | 'r' :: 'u' :: 'e' :: r => some (.bool true, r)
        | _ => none
      else if c = 'f' then
        match rest with
        | 'a' :: 'l' :: 's' :: 'e' :: r => some (.bool false, r)
        | _ => none
      else if c = '\"' then
        match jsonStringBody (fuel + 1) rest with
        | none => none
        | some (s, r) => some (.str s, r)
      else if c = '[' then
        match jsonSkipWs rest with
        | ']' :: r => some (.arr [], r)
        | r0 =>
          match jsonArrayRest fuel r0 with
          | none => none
          | some (vs, r) => some (.arr vs, r)
      else if c = lbraceChar then
        match jsonSkipWs rest with
        | r0 =>
          if r0.head? = some rbraceChar then some (.obj [], r0.tail)
          else
            match jsonObjectRest fuel r0 with
            | none => none
            | some (ms, r) => some (.obj ms, r)
      else if c = '-' then
        match rest with
        | d :: _ =>
          if d.isDigit then
            let p := jsonNatAcc (fuel + 1) rest 0
            some (.num (-(p.1 : Int)), p.2)
          else none
        | [] => none
      else if c.isDigit then
        let p := jsonNatAcc (fuel + 1) (c :: rest) 0
        some (.num (p.1 : Int), p.2)
      else none

/-- Parse the elements of a non-empty JSON array (after `[`), up to and
including the closing `]`. -/
def jsonArrayRest : Nat → List Char → Option (List Json × List Char)
  | 0, _ => none
  | fuel + 1, cs =>
    match jsonValue fuel cs with
    | none => none
    | some (v, r) =>
      match jsonSkipWs r with
      | c :: r2 =>
        if c = ',' then
          match jsonArrayRest fuel r2 with
          | none => none
          | some (vs, r3) => some (v :: vs, r3)
        else if c = ']' then some ([v], r2)
        else none
      | [] => none

/-- Parse the members of a non-empty JSON object (after its opening
brace), up to and including the closing brace. -/
def jsonObjectRest : Nat → List Char → Option (List (String × Json) × List Char)
  | 0, _ => none
  | fuel + 1, cs =>
    match jsonSkipWs cs with
    | c :: r =>
      if c = '\"' then
        match jsonStringBody fuel r with
        | none => none
        | some (k, r2) =>
          match jsonSkipWs r2 with
          | ':' :: r3 =>
            match jsonValue fuel r3 with
            | none => none
            | some (v, r4) =>
              match jsonSkipWs r4 with
              | c2 :: r5 =>
                if c2 = ',' then
                  match jsonObjectRest fuel r5 with
                  | none => none
                  | some (ms, r6) => some ((k, v) :: ms, r6)
                else if c2 = rbraceChar then some ([(k, v)], r5)
                else none
              | [] => none
          | _ => none
      else none
    | [] => none

end

/-- `json.load` on the file contents: one JSON document, nothing but
whitespace after it; `none` models `json.JSONDecodeError`. -/
def jsonParse (s : String) : Option Json :=
  match jsonValue (s.data.length * 2 + 4) s.data with
  | none => none
  | some (v, rest) => if jsonSkipWs rest = [] then some v else none

/-- `isinstance(data, dict)`. -/
def Json.isDict : Json → Bool
  | .obj _ => true
  | _ => false

/-- Python's `key in data` on a parsed dict. -/
def Json.hasKey : Json → String → Bool
  | .obj ms, key => ms.any (fun m => m.1 = key)
  | _, _ => false

/-- First value bound to `key` among the members of an object. -/
def jsonLookup : List (String × Json) → String → Option Json
  | [], _ => none
  | (k, v) :: ms, key => if k = key then some v else jsonLookup ms key

/-- The default structure `{"users": [], "history": []}` used whenever
the store cannot be read. -/
def emptyDbJson : Json := .obj [("users", .arr []), ("history", .arr [])]

/-- `load_db_data()` (`app/db_operations.py`, lines 9-31).  The store
file is `none` when `os.path.exists(DB_FILE)` is false.  A present file
is parsed; a `JSONDecodeError` yields the default structure, as does a
parsed value that is not a dict containing both `"users"` and
`"history"`; a dict containing both keys is returned unchanged.  (The
`IOError` branch, also returning the default structure, is not given a
separate input case.) -/
def load_db_data (file : Option String) : Json :=
  match file with
  | none => emptyDbJson
  | some contents =>
    match jsonParse contents with
    | none => emptyDbJson
    | some data =>
      if data.isDict && data.hasKey "users" && data.hasKey "history" then data
      else emptyDbJson

/-- The result shape named by the spec: a dict whose `"users"` and
`"history"` entries are both lists. -/
def hasDbShape : Json → Bool
  | .obj ms =>
    (match jsonLookup ms "users" with
     | some (.arr _) => true
     | _ => false) &&
    (match jsonLookup ms "history" with
     | some (.arr _) => true
     | _ => false)
  | _ => false

/-! ### `record_interaction` (lines 47-71)

In the regime the operation is written for, the loaded store is a dict
whose `"users"` entries carry `name`/`email` and whose `"history"`
entries are the records this very function writes, so the state is
typed below.  The `load_db_data()` / `save_db_data(db_data)` pair at
the boundaries is the identity on that state, and
`datetime.datetime.now().isoformat()` is passed in as `now`. -/

/-- One element of `db_data["users"]`. -/
structure UserRec where
  name : String
  email : String
deriving DecidableEq, Repr

/-- One element of `db_data["history"]`, as written by
`record_interaction` (lines 61-68). -/
structure HistoryEntry where
  timestamp : String
  name : String
  email : String
  analysis_type : String
  job_description_excerpt : String
  ai_response_excerpt : String
deriving DecidableEq, Repr

/-- The loaded store `{"users": ..., "history": ...}` in its normal
regime. -/
structure DbData where
  users : List UserRec
  history : List HistoryEntry
deriving DecidableEq, Repr

/-- `record_interaction(user_name, user_email, analysis_type,
job_description, ai_response)` (lines 47-71) as a transformation of the
loaded store.  The user scan mirrors the `for`/`break` loop with
`user.get("email") == user_email`; the append is guarded by
`if user_email and not user_exists` (an empty email is falsy and is
never appended).  The two excerpts mirror Python's
`x[:n] + "..." if x and len(x) > n else x`. -/
def record_interaction (now : String) (user_name user_email analysis_type
    job_description ai_response : String) (db_data : DbData) : DbData :=
  let user_exists := db_data.users.any (fun user => user.email = user_email)
  let users1 :=
    if user_email ≠ "" ∧ ¬user_exists then
      db_data.users ++ [⟨user_name, user_email⟩]
    else db_data.users
  let history_entry : HistoryEntry :=
    ⟨now, user_name, user_email, analysis_type,
      (if job_description ≠ "" ∧ job_description.length > 200 then
        job_description.take 200 ++ "..." else job_description),
      (if ai_response ≠ "" ∧ ai_response.length > 500 then
        ai_response.take 500 ++ "..." else ai_response)⟩
  ⟨users1, db_data.history ++ [history_entry]⟩

/-! ### `clean_old_history` (lines 73-108)

A raw history element is either a dict (with an optional `"timestamp"`
string and whatever other fields it carries) or a malformed non-dict
entry for which `"timestamp" in entry` raises `TypeError` (e.g. a
number).  `datetime.datetime.fromisoformat` is the function argument
`parseTs` (`none` models `ValueError`); datetimes are seconds, and
`timedelta.days` is floor division of the difference by 86400, which is
`Int.fdiv`. -/

/-- A raw element of `db_data["history"]`. -/
inductive HistItem where
  | dict (timestamp : Option String) (fields : List (String × String))
  | nonDict (val : Int)
deriving DecidableEq, Repr

/-- The `for entry in db_data_to_clean["history"]` loop of
`clean_old_history` (lines 82-102): returns `cleaned_history` and
`cleanup_occurred`.  An entry whose age in days exceeds the threshold
is dropped and sets the flag; a missing (`else` branch, line 92) or
unparsable (`except ValueError`, line 95) timestamp keeps the entry; a
non-dict entry (`except TypeError`, line 99) is `continue`d past —
dropped without setting the flag. -/
def clean_history_scan (parseTs : String → Option Int) (nowSec : Int)
    (days_threshold : Int) : List HistItem → List HistItem × Bool
  | [] => ([], false)
  | item :: restItems =>
    let tail := clean_history_scan parseTs nowSec days_threshold restItems
    match item with
    | .dict ts fields =>
      match ts with
      | some tstr =>
        match parseTs tstr with
        | some t =>
          if Int.fdiv (nowSec - t) 86400 ≤ days_threshold then
            (item :: tail.1, tail.2)
          else (tail.1, true)
        | none => (item :: tail.1, tail.2)
      | none => (item :: tail.1, tail.2)
    | .nonDict v => (tail.1, tail.2)

/-- Effect of one `clean_old_history` call: the returned boolean, the
`history` field of the store after the call, and whether
`save_db_data` ran. -/
structure CleanOutcome where
  returned : Bool
  history : List HistItem
  saved : Bool
deriving DecidableEq, Repr

/-- `clean_old_history(db_data_to_clean, days_threshold=100)`
(lines 73-108): the store is mutated and persisted only when
`cleanup_occurred`. -/
def clean_old_history (parseTs : String → Option Int) (nowSec : Int)
    (history : List HistItem) (days_threshold : Int) : CleanOutcome :=
  let scan := clean_history_scan parseTs nowSec days_threshold history
  if scan.2 then ⟨true, scan.1, true⟩ else ⟨false, history, false⟩

/-! ## Document renderer (`app/utils.py`, `generate_pdf_from_markdown`,
lines 58-178)

`markdown.markdown` and the `pdfkit.from_string` call driving
`wkhtmltopdf` are external and passed in as functions; `htmlToPdf`
returns the bytes the converter wrote into the temporary file (`some`)
or raises (`none`).  The observable effect on the file system is
whether the `NamedTemporaryFile(delete=False)` created for the
conversion output still exists when the function returns. -/

/-- The fixed HTML template (lines 65-160), abbreviated: the constant
CSS is elided, and the title, converted body, footer text and
generation timestamp are interpolated in source order. -/
def pdfHtmlTemplate (title html_content footer_text now : String) : String :=
  "<html><head><title>" ++ title ++ "</title></head><body><h1>" ++ title ++
    "</h1>" ++ html_content ++ "<div class=\"footer\"><p>" ++ footer_text ++
    "</p><p>Generated on: " ++ now ++ "</p></div></body></html>"

/-- What one render call leaves behind: the returned value (`none` is
Python's `None`) and whether the temporary PDF file is still on disk. -/
structure RenderOutcome where
  result : Option String
  tempFileRemains : Bool
deriving DecidableEq, Repr

/-- `generate_pdf_from_markdown(markdown_content, title, footer_text,
filename)` (lines 58-178).  On success the data is read back and
`os.unlink(tmp_pdf.name)` (line 174) removes the temporary file; when
`pdfkit.from_string` raises, control jumps from inside the `with` block
to the `except` handler (line 176), which returns `None` — the
`os.unlink` call is never reached, so the temporary file survives. -/
def generate_pdf_from_markdown (mdToHtml : String → String)
    (htmlToPdf : String → Option String) (markdown_content title footer_text
    filename now : String) : RenderOutcome :=
  let html_content := mdToHtml markdown_content
  let full_html := pdfHtmlTemplate title html_content footer_text now
  match htmlToPdf full_html with
  | some pdf_data => ⟨some pdf_data, false⟩
  | none => ⟨none, true⟩

/-! ## Predicates used by the claims -/

/-- "The model always returns an empty or invalid response": the
`generate_content` call produced `None`, or a response object whose
`text` is empty — both land on line 36 of `ai_service.py`. -/
def IsEmptyOutcome (a : AttemptOutcome) : Prop :=
  a = .response none ∨ ∃ r, a = .response (some r) ∧ r.text = ""

/-- An attempt outcome handled by the shared recoverable tail (`cont`)
of the loop with exception text `cause`: an empty/invalid response, a
general exception, or a `ClientResponseError` that is neither
rate-limiting (429) nor the fatal credential case. -/
def ContinuesWith (a : AttemptOutcome) (cause : String) : Prop :=
  (a = .response none ∧ cause = emptyRespMsg) ∨
  (∃ r, a = .response (some r) ∧ r.text = "" ∧ cause = emptyRespMsg) ∨
  a = .generalError cause ∨
  ∃ status b, a = .clientError status b cause ∧ status ≠ 429 ∧ ¬(status = 400 ∧ b = true)

/-- A terminal failure outcome of the wrapper, in the sense of spec
section 7: the raised wrapped exhaustion error, or the returned
sentinel failure string of line 56. -/
def CallResult.isTerminalFailure : CallResult → Bool
  | .raised _ => true
  | .text s => s = sentinelMsg
  | .halted => false

end FlowResume

namespace FlowResume

/-! ## Helper lemmas about the retry loop -/

/-- Evaluating one loop iteration whose outcome goes through the shared
recoverable tail: raise the wrapped exhaustion error on the last
attempt, else sleep `2 ^ attempt` seconds and continue. -/
theorem call_gemini_loop_cons_cont (o : Nat → AttemptOutcome) (N : Int)
    (attempt : Nat) (rest : List Nat) (cause : String)
    (h : ContinuesWith (o attempt) cause) :
    call_gemini_loop o N (attempt :: rest) =
      if (attempt : Int) = N - 1 then
        ⟨.raised (failAfterMsg N cause), 1, []⟩
      else
        ⟨(call_gemini_loop o N rest).result,
         (call_gemini_loop o N rest).attempts + 1,
         (2 ^ attempt) :: (call_gemini_loop o N rest).sleeps⟩ := by
  rcases h with ⟨h1, h2⟩ | ⟨r, h1, h2, h3⟩ | h1 | ⟨status, b, h1, h2, h3⟩
  · subst h2; rw [call_gemini_loop, h1]
  · subst h3; rw [call_gemini_loop, h1]; simp [h2]
  · rw [call_gemini_loop, h1]
  · rw [call_gemini_loop, h1]
    simp only [if_neg h2, if_neg h3]

/-- Evaluating one rate-limited (429) loop iteration: sleep
unconditionally — no last-attempt check — and continue. -/
theorem call_gemini_loop_cons_429 (o : Nat → AttemptOutcome) (N : Int)
    (attempt : Nat) (rest : List Nat) (b : Bool) (msg : String)
    (h : o attempt = .clientError 429 b msg) :
    call_gemini_loop o N (attempt :: rest) =
      ⟨(call_gemini_loop o N rest).result,
       (call_gemini_loop o N rest).attempts + 1,
       (2 ^ attempt) :: (call_gemini_loop o N rest).sleeps⟩ := by
  rw [call_gemini_loop, h]
  rfl

/-- Evaluating one fatal-credential loop iteration (status 400 with the
`"API key expired"` marker): `st.stop()` at once. -/
theorem call_gemini_loop_cons_fatal (o : Nat → AttemptOutcome) (N : Int)
    (attempt : Nat) (rest : List Nat) (msg : String)
    (h : o attempt = .clientError 400 true msg) :
    call_gemini_loop o N (attempt :: rest) = ⟨.halted, 1, []⟩ := by
  rw [call_gemini_loop, h]
  simp

/-- Running the loop over the attempt indices `s, …, N-1` when every
outcome is recoverable and non-429: each of the `k` remaining attempts
is issued, the last one raises the wrapped exhaustion error, and every
attempt but the last is followed by a `2 ^ i` sleep. -/
theorem call_gemini_loop_all_cont (o : Nat → AttemptOutcome)
    (c : Nat → String) (ho : ∀ i, ContinuesWith (o i) (c i)) (N : Nat) :
    ∀ k s, 1 ≤ k → s + k = N →
      call_gemini_loop o (N : Int) (List.range' s k) =
        ⟨.raised (failAfterMsg (N : Int) (c (N - 1))), k,
          (List.range' s (k - 1)).map (fun i => 2 ^ i)⟩ := by
  intro k
  induction k with
  | zero => intro s h1 h2; omega
  | succ k ih =>
    intro s h1 h2
    rw [List.range'_succ s k 1, call_gemini_loop_cons_cont o _ s _ (c s) (ho s)]
    cases k with
    | zero =>
      have hlast : ((s : Nat) : Int) = (N : Int) - 1 := by omega
      have hs : s = N - 1 := by omega
      rw [if_pos hlast, hs]
      rfl
    | succ k =>
      have hlast : ¬(((s : Nat) : Int) = (N : Int) - 1) := by omega
      rw [if_neg hlast, ih (s + 1) (by omega) (by omega)]
      simp only [CallTrace.mk.injEq, Nat.succ_sub_one, true_and]
      rw [List.range'_succ s k 1]
      simp

/-- Running the loop over `s, …, s+k-1` when every outcome is
rate-limited (429): all `k` attempts are issued, every one of them —
the last included — is followed by a `2 ^ i` sleep, and the loop falls
through to the sentinel string. -/
theorem call_gemini_loop_all_429 (o : Nat → AttemptOutcome)
    (b : Nat → Bool) (m : Nat → String)
    (ho : ∀ i, o i = .clientError 429 (b i) (m i)) (N : Int) :
    ∀ k s, call_gemini_loop o N (List.range' s k) =
      ⟨.text sentinelMsg, k, (List.range' s k).map (fun i => 2 ^ i)⟩ := by
  intro k
  induction k with
  | zero => intro s; rfl
  | succ k ih =>
    intro s
    rw [List.range'_succ s k 1,
      call_gemini_loop_cons_429 o N s _ (b s) (m s) (ho s), ih (s + 1)]
    simp [List.range'_succ]

/-- Running the loop over `s, …, N-1` when attempts `s, …, k-2` are
recoverable and non-429 and attempt `k-1` is the fatal credential case:
the loop halts at attempt `k-1` having issued `k - s` calls, with a
backoff sleep after every attempt except the fatal one. -/
theorem call_gemini_loop_fatal_at (o : Nat → AttemptOutcome)
    (c : Nat → String) (k : Nat) (msg : String)
    (hf : o (k - 1) = .clientError 400 true msg)
    (hc : ∀ i, i < k - 1 → ContinuesWith (o i) (c i)) (N : Nat)
    (hk1 : 1 ≤ k) (hkN : k ≤ N) :
    ∀ d s, s + d = k - 1 →
      call_gemini_loop o (N : Int) (List.range' s (N - s)) =
        ⟨.halted, k - s, (List.range' s (k - 1 - s)).map (fun i => 2 ^ i)⟩ := by
  intro d
  induction d with
  | zero =>
    intro s hs
    have hs' : s = k - 1 := by omega
    have hN : N - s = (N - k) + 1 := by omega
    rw [hN, List.range'_succ,
      call_gemini_loop_cons_fatal o _ s _ msg (by rw [hs']; exact hf)]
    have h1 : k - s = 1 := by omega
    have h2 : k - 1 - s = 0 := by omega
    rw [h1, h2]
    rfl
  | succ d ih =>
    intro s hs
    have h1 : s < k - 1 := by omega
    have hN : N - s = (N - (s + 1)) + 1 := by omega
    rw [hN, List.range'_succ,
      call_gemini_loop_cons_cont o _ s _ (c s) (hc s h1)]
    have hlast : ¬(((s : Nat) : Int) = (N : Int) - 1) := by omega
    rw [if_neg hlast, ih (s + 1) (by omega)]
    simp only [CallTrace.mk.injEq, true_and]
    refine ⟨by omega, ?_⟩
    have h3 : k - 1 - s = (k - 1 - (s + 1)) + 1 := by omega
    rw [h3, List.range'_succ]
    simp

/-- `call_gemini` with a natural budget runs the loop over the attempt
indices `0, …, N-1`. -/
theorem call_gemini_eq_loop (o : Nat → AttemptOutcome) (prompt : String)
    (parts : List ContentPart) (model_name : String) (N : Nat) :
    call_gemini o prompt parts model_name (N : Int) =
      call_gemini_loop o (N : Int) (List.range' 0 N) := by
  simp only [call_gemini]
  rw [Int.toNat_natCast, List.range_eq_range']

/-! ## Claims about the remote call wrapper -/

/-- **C1.** For every attempt budget `N ≥ 1`, when the model always
returns an empty or invalid response, `call_gemini` issues exactly `N`
attempts and produces a terminal failure — the wrapped exhaustion error
(spec section 7 names either the raised wrapped error or the sentinel
string as the terminal failure of the wrapper); it never silently
succeeds and never retries past the budget, and exactly `N - 1` backoff
sleeps of durations `1, 2, 4, …, 2^(N-2)` seconds separate the
attempts. -/
theorem call_gemini_empty_responses_exhaust_budget
    (o : Nat → AttemptOutcome) (prompt : String) (parts : List ContentPart)
    (model_name : String) (N : Nat) (hN : 1 ≤ N)
    (ho : ∀ i, IsEmptyOutcome (o i)) :
    (call_gemini o prompt parts model_name (N : Int)).attempts = N ∧
    (call_gemini o prompt parts model_name (N : Int)).result =
      .raised (failAfterMsg (N : Int) emptyRespMsg) ∧
    ((call_gemini o prompt parts model_name (N : Int)).result).isTerminalFailure = true ∧
    (call_gemini o prompt parts model_name (N : Int)).sleeps =
      (List.range (N - 1)).map (fun i => 2 ^ i) := by
  have hc : ∀ i, ContinuesWith (o i) ((fun _ => emptyRespMsg) i) := by
    intro i
    rcases ho i with h | ⟨r, h1, h2⟩
    · exact Or.inl ⟨h, rfl⟩
    · exact Or.inr (Or.inl ⟨r, h1, h2, rfl⟩)
  have hmain := call_gemini_loop_all_cont o (fun _ => emptyRespMsg) hc N N 0 hN (by omega)
  rw [call_gemini_eq_loop, hmain]
  exact ⟨rfl, rfl, rfl, by rw [List.range_eq_range']⟩

/-- Witness for C1 at budget 3 with a model that always returns `None`:
three attempts, the wrapped exhaustion error, two sleeps of 1 and 2
seconds. -/
theorem call_gemini_empty_responses_exhaust_budget_witness :
    (call_gemini (fun _ => .response none) "p" [] "gemini-1.5-flash" ((3 : Nat) : Int)).attempts = 3 ∧
    (call_gemini (fun _ => .response none) "p" [] "gemini-1.5-flash" ((3 : Nat) : Int)).result =
      .raised (failAfterMsg ((3 : Nat) : Int) emptyRespMsg) ∧
    ((call_gemini (fun _ => .response none) "p" [] "gemini-1.5-flash" ((3 : Nat) : Int)).result).isTerminalFailure = true ∧
    (call_gemini (fun _ => .response none) "p" [] "gemini-1.5-flash" ((3 : Nat) : Int)).sleeps =
      (List.range 2).map (fun i => 2 ^ i) :=
  call_gemini_empty_responses_exhaust_budget (fun _ => .response none) "p" []
    "gemini-1.5-flash" 3 (by decide) (fun _ => Or.inl rfl)

/-- **C2 counterexample.** With every attempt rate-limited (HTTP 429)
and budget 1, the single — hence final — attempt is followed by a
1-second backoff sleep: the number of sleeps exceeds `attempts - 1`,
refuting "the delay is applied only before a subsequent attempt, never
after the final attempt, on every recoverable failure path including
the rate-limit path". -/
theorem call_gemini_backoff_after_final_429_counterexample :
    (call_gemini (fun _ => .clientError 429 false "rate limited") "p" [] "gemini-1.5-flash" 1).attempts = 1 ∧
    (call_gemini (fun _ => .clientError 429 false "rate limited") "p" [] "gemini-1.5-flash" 1).sleeps = [1] ∧
    ¬((call_gemini (fun _ => .clientError 429 false "rate limited") "p" [] "gemini-1.5-flash" 1).sleeps.length ≤
        (call_gemini (fun _ => .clientError 429 false "rate limited") "p" [] "gemini-1.5-flash" 1).attempts - 1) := by
  refine ⟨rfl, rfl, ?_⟩
  decide

/-- **C2 amended.** The backoff delay before the next attempt is
`2 ^ attempt_index` seconds (so `1, 2, 4, 8, 16` for attempts `0..4`).
On the empty-response, general-exception and non-429 client-error
paths it is applied only before a subsequent attempt, never after the
final one; on the rate-limit (HTTP 429) path it is applied after every
rate-limited attempt, including the final one. -/
theorem call_gemini_backoff_schedule_amended :
    (∀ (o : Nat → AttemptOutcome) (c : Nat → String) (prompt : String)
        (parts : List ContentPart) (model_name : String) (N : Nat),
      1 ≤ N → (∀ i, ContinuesWith (o i) (c i)) →
      (call_gemini o prompt parts model_name (N : Int)).sleeps =
        (List.range (N - 1)).map (fun i => 2 ^ i)) ∧
    (∀ (o : Nat → AttemptOutcome) (b : Nat → Bool) (m : Nat → String)
        (prompt : String) (parts : List ContentPart) (model_name : String) (N : Nat),
      (∀ i, o i = .clientError 429 (b i) (m i)) →
      (call_gemini o prompt parts model_name (N : Int)).sleeps =
        (List.range N).map (fun i => 2 ^ i)) := by
  constructor
  · intro o c prompt parts model_name N hN hc
    rw [call_gemini_eq_loop,
      call_gemini_loop_all_cont o c hc N N 0 hN (by omega), List.range_eq_range']
  · intro o b m prompt parts model_name N ho
    rw [call_gemini_eq_loop,
      call_gemini_loop_all_429 o b m ho (N : Int) N 0, List.range_eq_range']

/-- Witness for the amended C2: a general error on every attempt with
budget 3 sleeps `[1, 2]` (never after the final attempt); a 429 on
every attempt with budget 2 sleeps `[1, 2]` (after every attempt, the
final one included). -/
theorem call_gemini_backoff_schedule_amended_witness :
    (call_gemini (fun _ => .generalError "boom") "p" [] "m" ((3 : Nat) : Int)).sleeps =
      (List.range 2).map (fun i => 2 ^ i) ∧
    (call_gemini (fun _ => .clientError 429 false "rate") "p" [] "m" ((2 : Nat) : Int)).sleeps =
      (List.range 2).map (fun i => 2 ^ i) :=
  ⟨call_gemini_backoff_schedule_amended.1 (fun _ => .generalError "boom")
      (fun _ => "boom") "p" [] "m" 3 (by decide)
      (fun _ => Or.inr (Or.inr (Or.inl rfl))),
    call_gemini_backoff_schedule_amended.2 (fun _ => .clientError 429 false "rate")
      (fun _ => false) (fun _ => "rate") "p" [] "m" 2 (fun _ => rfl)⟩

/-- **C3.** If attempt `k` (`1 ≤ k ≤ max_retries`) yields the
invalid/expired-credential error (HTTP 400 whose text carries the
`"API key expired"` marker) and the earlier attempts were recoverable,
the wrapper halts the session immediately: exactly `k` attempts are
issued, no backoff sleep follows the fatal attempt (the sleeps are
those of the `k - 1` earlier attempts only), and the outcome is the
`st.stop()` session abort, not a retried or returned value. -/
theorem call_gemini_fatal_credential_halts
    (o : Nat → AttemptOutcome) (c : Nat → String) (prompt : String)
    (parts : List ContentPart) (model_name : String) (N k : Nat)
    (msg : String) (hk1 : 1 ≤ k) (hkN : k ≤ N)
    (hf : o (k - 1) = .clientError 400 true msg)
    (hc : ∀ i, i < k - 1 → ContinuesWith (o i) (c i)) :
    (call_gemini o prompt parts model_name (N : Int)).result = .halted ∧
    (call_gemini o prompt parts model_name (N : Int)).attempts = k ∧
    (call_gemini o prompt parts model_name (N : Int)).sleeps =
      (List.range (k - 1)).map (fun i => 2 ^ i) := by
  have hmain := call_gemini_loop_fatal_at o c k msg hf hc N hk1 hkN (k - 1) 0 (by omega)
  simp only [Nat.sub_zero] at hmain
  rw [call_gemini_eq_loop, hmain]
  exact ⟨rfl, rfl, by rw [List.range_eq_range']⟩

/-- Witness for C3: budget 5, a general error on attempt 0 and the
fatal credential error on attempt 1 (`k = 2`): session halt after
exactly 2 attempts with the single sleep `[1]` from attempt 0. -/
theorem call_gemini_fatal_credential_halts_witness :
    (call_gemini (fun i => if i = 0 then .generalError "g" else .clientError 400 true "API key expired")
        "p" [] "m" ((5 : Nat) : Int)).result = .halted ∧
    (call_gemini (fun i => if i = 0 then .generalError "g" else .clientError 400 true "API key expired")
        "p" [] "m" ((5 : Nat) : Int)).attempts = 2 ∧
    (call_gemini (fun i => if i = 0 then .generalError "g" else .clientError 400 true "API key expired")
        "p" [] "m" ((5 : Nat) : Int)).sleeps = (List.range 1).map (fun i => 2 ^ i) :=
  call_gemini_fatal_credential_halts
    (fun i => if i = 0 then .generalError "g" else .clientError 400 true "API key expired")
    (fun _ => "g") "p" [] "m" 5 2 "API key expired" (by decide) (by decide)
    (by decide)
    (fun i hi => by
      have h0 : i = 0 := by omega
      subst h0
      exact Or.inr (Or.inr (Or.inl rfl)))

/-- **C10.** A non-positive `max_retries` (0 or any negative value)
makes `range(max_retries)` empty: `call_gemini` issues no remote call,
sleeps never, and immediately returns the sentinel string
`"Error: Unable to process request after multiple attempts."`. -/
theorem call_gemini_nonpositive_budget_returns_sentinel
    (o : Nat → AttemptOutcome) (prompt : String) (parts : List ContentPart)
    (model_name : String) (max_retries : Int) (h : max_retries ≤ 0) :
    call_gemini o prompt parts model_name max_retries =
      ⟨.text sentinelMsg, 0, []⟩ := by
  simp only [call_gemini]
  rw [Int.toNat_of_nonpos h]
  rfl

/-- Witness for C10 at budgets `0` and `-2`, with a model that would
answer successfully if it were ever called. -/
theorem call_gemini_nonpositive_budget_returns_sentinel_witness :
    call_gemini (fun _ => .response (some ⟨"hi"⟩)) "p" [] "m" 0 =
      ⟨.text sentinelMsg, 0, []⟩ ∧
    call_gemini (fun _ => .response (some ⟨"hi"⟩)) "p" [] "m" (-2) =
      ⟨.text sentinelMsg, 0, []⟩ :=
  ⟨call_gemini_nonpositive_budget_returns_sentinel (fun _ => .response (some ⟨"hi"⟩))
      "p" [] "m" 0 (by decide),
    call_gemini_nonpositive_budget_returns_sentinel (fun _ => .response (some ⟨"hi"⟩))
      "p" [] "m" (-2) (by decide)⟩

/-! ## Claim about the analysis functions -/

/-- **C4.** Every top-level analysis function wraps its single
`call_gemini` call (budget 5, the default) in `try/except Exception`:
whenever that wrapper call raises `e`, the function returns the
descriptive string `"Error <doing X>: " ++ e` instead of raising, and
whenever the wrapper returns text the function returns that text — so
a caller always receives a displayable string and never an unhandled
exception.  The hypotheses constrain the trace of the budget-5 wrapper
call, which depends only on the oracle, not on the prompt. -/
theorem analysis_functions_stringify_wrapper_errors
    (o : Nat → AttemptOutcome) (job_desc language company_name hiring_manager
      location experience_level target_role_type model_name e t : String)
    (parts : List ContentPart) :
    ((call_gemini_loop o 5 (List.range 5)).result = .raised e →
      analyze_resume o job_desc parts model_name = .display ("Error analyzing resume: " ++ e) ∧
      get_match_score o job_desc parts model_name = .display ("Error calculating match score: " ++ e) ∧
      optimize_resume o job_desc parts language model_name = .display ("Error optimizing resume: " ++ e) ∧
      check_grammar o parts model_name = .display ("Error checking grammar: " ++ e) ∧
      keyword_density o job_desc parts model_name = .display ("Error analyzing keyword density: " ++ e) ∧
      suggest_roles o parts model_name = .display ("Error suggesting roles: " ++ e) ∧
      section_check o parts model_name = .display ("Error checking sections: " ++ e) ∧
      generate_cover_letter o job_desc parts company_name hiring_manager model_name = .display ("Error generating cover letter: " ++ e) ∧
      salary_insights o parts location experience_level model_name = .display ("Error generating salary insights: " ++ e) ∧
      skill_gap_analysis o parts job_desc model_name = .display ("Error performing skill gap analysis: " ++ e) ∧
      generate_interview_questions o parts job_desc model_name = .display ("Error generating interview questions: " ++ e) ∧
      generate_branding_statement o parts target_role_type model_name = .display ("Error generating branding statement: " ++ e)) ∧
    ((call_gemini_loop o 5 (List.range 5)).result = .text t →
      analyze_resume o job_desc parts model_name = .display t ∧
      get_match_score o job_desc parts model_name = .display t ∧
      optimize_resume o job_desc parts language model_name = .display t ∧
      check_grammar o parts model_name = .display t ∧
      keyword_density o job_desc parts model_name = .display t ∧
      suggest_roles o parts model_name = .display t ∧
      section_check o parts model_name = .display t ∧
      generate_cover_letter o job_desc parts company_name hiring_manager model_name = .display t ∧
      salary_insights o parts location experience_level model_name = .display t ∧
      skill_gap_analysis o parts job_desc model_name = .display t ∧
      generate_interview_questions o parts job_desc model_name = .display t ∧
      generate_branding_statement o parts target_role_type model_name = .display t) := by
  have hcall : ∀ p : String,
      (call_gemini o p parts model_name 5).result =
        (call_gemini_loop o 5 (List.range 5)).result := fun _ => rfl
  constructor <;> intro h <;>
    refine ⟨?_, ?_, ?_, ?_, ?_, ?_, ?_, ?_, ?_, ?_, ?_, ?_⟩ <;>
    simp only [analyze_resume, get_match_score, optimize_resume, check_grammar,
      keyword_density, suggest_roles, section_check, generate_cover_letter,
      salary_insights, skill_gap_analysis, generate_interview_questions,
      generate_branding_statement, hcall, h]

/-- Witness for C4: with a general error on every attempt the wrapper
raises the exhaustion error and the analysis functions return the
descriptive strings; with an immediate success they return the text. -/
theorem analysis_functions_stringify_wrapper_errors_witness :
    analyze_resume (fun _ => .generalError "boom") "jd" [] "m" =
      .display ("Error analyzing resume: " ++ failAfterMsg 5 "boom") ∧
    generate_branding_statement (fun _ => .generalError "boom") [] "role" "m" =
      .display ("Error generating branding statement: " ++ failAfterMsg 5 "boom") ∧
    analyze_resume (fun _ => .response (some ⟨"hi"⟩)) "jd" [] "m" = .display "hi" := by
  have h1 := (analysis_functions_stringify_wrapper_errors
    (fun _ => .generalError "boom") "jd" "English" "c" "h" "loc" "exp" "role" "m"
    (failAfterMsg 5 "boom") "t" []).1 (by rfl)
  have h2 := (analysis_functions_stringify_wrapper_errors
    (fun _ => .response (some ⟨"hi"⟩)) "jd" "English" "c" "h" "loc" "exp" "role" "m"
    "e" "hi" []).2 (by rfl)
  exact ⟨h1.1, h1.2.2.2.2.2.2.2.2.2.2.2, h2.1⟩

/-! ## Claims about the interaction log -/

/-- **C5 counterexample.** A store file containing
`{"users": 5, "history": 3}` is valid JSON, is a dict, and contains
both keys, so `load_db_data` returns it unchanged — but neither value
is a list, so the result does not have the claimed
`{"users": [...], "history": [...]}` shape. -/
theorem load_db_data_value_shape_counterexample :
    hasDbShape (load_db_data (some "\x7b\"users\": 5, \"history\": 3\x7d")) = false ∧
    load_db_data (some "\x7b\"users\": 5, \"history\": 3\x7d") =
      .obj [("users", .num 5), ("history", .num 3)] :=
  ⟨rfl, rfl⟩

/-- **C5 amended.** `load_db_data` never raises and always returns a
dict containing both the `"users"` and `"history"` keys: a missing
file, malformed JSON such as `"not json{"`, and valid JSON of an
unexpected shape such as `{"foo": 1}` all yield the empty structure
`{"users": [], "history": []}`, and any parsed dict containing both
keys is returned unchanged (its value types are not checked). -/
theorem load_db_data_defensive_amended :
    load_db_data none = emptyDbJson ∧
    load_db_data (some "not json\x7b") = emptyDbJson ∧
    load_db_data (some "\x7b\"foo\": 1\x7d") = emptyDbJson ∧
    (∀ file, (load_db_data file).isDict = true ∧
      (load_db_data file).hasKey "users" = true ∧
      (load_db_data file).hasKey "history" = true) ∧
    (∀ s d, jsonParse s = some d → d.isDict = true → d.hasKey "users" = true →
      d.hasKey "history" = true → load_db_data (some s) = d) := by
  refine ⟨rfl, rfl, rfl, ?_, ?_⟩
  · intro file
    match file with
    | none => exact ⟨rfl, rfl, rfl⟩
    | some s =>
      simp only [load_db_data]
      rcases hp : jsonParse s with _ | d
      · exact ⟨rfl, rfl, rfl⟩
      · dsimp only
        by_cases hd : (d.isDict && d.hasKey "users" && d.hasKey "history") = true
        · rw [if_pos hd]
          simp only [Bool.and_eq_true] at hd
          exact ⟨hd.1.1, hd.1.2, hd.2⟩
        · rw [if_neg hd]
          exact ⟨rfl, rfl, rfl⟩
  · intro s d hp h1 h2 h3
    simp only [load_db_data, hp]
    rw [if_pos (by simp [h1, h2, h3])]

/-- Witness for the amended C5: a well-formed store file parses to a
dict with both keys and is returned unchanged. -/
theorem load_db_data_defensive_amended_witness :
    load_db_data (some "\x7b\"users\": [], \"history\": []\x7d") =
      .obj [("users", .arr []), ("history", .arr [])] :=
  load_db_data_defensive_amended.2.2.2.2 _
    (.obj [("users", .arr []), ("history", .arr [])]) rfl rfl rfl rfl

/-- **C6.** `record_interaction` keeps `users` deduplicated by email:
with an email already present it leaves the length of `users` unchanged
and appends exactly one entry to `history`; with a not-yet-seen
(non-empty) email it appends exactly one user record, and still exactly
one history entry. -/
theorem record_interaction_dedup_users (now user_name user_email
    analysis_type job_description ai_response : String) (db_data : DbData) :
    ((user_email ∈ db_data.users.map UserRec.email →
      (record_interaction now user_name user_email analysis_type job_description ai_response db_data).users.length = db_data.users.length ∧
      (record_interaction now user_name user_email analysis_type job_description ai_response db_data).history.length = db_data.history.length + 1)) ∧
    (user_email ∉ db_data.users.map UserRec.email → user_email ≠ "" →
      (record_interaction now user_name user_email analysis_type job_description ai_response db_data).users.length = db_data.users.length + 1 ∧
      (record_interaction now user_name user_email analysis_type job_description ai_response db_data).history.length = db_data.history.length + 1) := by
  have hiff : db_data.users.any (fun user => user.email = user_email) = true ↔
      user_email ∈ db_data.users.map UserRec.email := by
    simp [List.any_eq_true, List.mem_map, UserRec.email]
  constructor
  · intro hmem
    simp only [record_interaction]
    rw [if_neg (fun hc => hc.2 (hiff.mpr hmem))]
    exact ⟨rfl, by simp⟩
  · intro hnot hne
    simp only [record_interaction]
    rw [if_pos ⟨hne, fun hc => hnot (hiff.mp hc)⟩]
    exact ⟨by simp, by simp⟩

/-- Witness for C6 on a store with one user: recording under the
existing email leaves one user, recording under a fresh email makes
two; both append one history entry. -/
theorem record_interaction_dedup_users_witness :
    (record_interaction "ts" "Alice" "a@x.com" "resume" "jd" "resp"
      ⟨[⟨"Alice", "a@x.com"⟩], []⟩).users.length = 1 ∧
    (record_interaction "ts" "Alice" "a@x.com" "resume" "jd" "resp"
      ⟨[⟨"Alice", "a@x.com"⟩], []⟩).history.length = 0 + 1 ∧
    (record_interaction "ts" "Bob" "b@y.com" "resume" "jd" "resp"
      ⟨[⟨"Alice", "a@x.com"⟩], []⟩).users.length = 1 + 1 ∧
    (record_interaction "ts" "Bob" "b@y.com" "resume" "jd" "resp"
      ⟨[⟨"Alice", "a@x.com"⟩], []⟩).history.length = 0 + 1 := by
  have h1 := (record_interaction_dedup_users "ts" "Alice" "a@x.com" "resume" "jd" "resp"
    ⟨[⟨"Alice", "a@x.com"⟩], []⟩).1 (by decide)
  have h2 := (record_interaction_dedup_users "ts" "Bob" "b@y.com" "resume" "jd" "resp"
    ⟨[⟨"Alice", "a@x.com"⟩], []⟩).2 (by decide) (by decide)
  exact ⟨h1.1, h1.2, h2.1, h2.2⟩

/-- Taking at most the whole string leaves exactly `n` characters. -/
theorem string_length_take_of_le (s : String) (n : Nat) (h : n ≤ s.length) :
    (s.take n).length = n := by
  obtain ⟨l⟩ := s
  rw [String.take_eq]
  simp only [String.length_mk, List.length_take] at h ⊢
  omega

/-- **C7.** The history entry appended by `record_interaction` stores a
job description longer than 200 characters as exactly its first 200
characters plus the 3-character ellipsis `"..."` (203 characters in
all) and the AI response, when longer than 500 characters, as its first
500 characters plus the ellipsis (503 characters); inputs at or under
the limit are stored unchanged. -/
theorem record_interaction_excerpt_truncation (now user_name user_email
    analysis_type job_description ai_response : String) (db_data : DbData) :
    ∃ entry : HistoryEntry,
      (record_interaction now user_name user_email analysis_type job_description ai_response db_data).history =
        db_data.history ++ [entry] ∧
      (job_description.length > 200 →
        entry.job_description_excerpt = job_description.take 200 ++ "..." ∧
        entry.job_description_excerpt.length = 203) ∧
      (job_description.length ≤ 200 →
        entry.job_description_excerpt = job_description) ∧
      (ai_response.length > 500 →
        entry.ai_response_excerpt = ai_response.take 500 ++ "..." ∧
        entry.ai_response_excerpt.length = 503) ∧
      (ai_response.length ≤ 500 →
        entry.ai_response_excerpt = ai_response) := by
  refine ⟨⟨now, user_name, user_email, analysis_type,
    (if job_description ≠ "" ∧ job_description.length > 200 then
      job_description.take 200 ++ "..." else job_description),
    (if ai_response ≠ "" ∧ ai_response.length > 500 then
      ai_response.take 500 ++ "..." else ai_response)⟩, rfl, ?_, ?_, ?_, ?_⟩
  · intro h
    have hne : job_description ≠ "" := by
      intro he
      rw [he] at h
      simp at h
    dsimp only
    rw [if_pos ⟨hne, h⟩]
    refine ⟨rfl, ?_⟩
    rw [String.length_append, string_length_take_of_le _ 200 (by omega)]
    rfl
  · intro h
    dsimp only
    rw [if_neg (fun hc => by omega)]
  · intro h
    have hne : ai_response ≠ "" := by
      intro he
      rw [he] at h
      simp at h
    dsimp only
    rw [if_pos ⟨hne, h⟩]
    refine ⟨rfl, ?_⟩
    rw [String.length_append, string_length_take_of_le _ 500 (by omega)]
    rfl
  · intro h
    dsimp only
    rw [if_neg (fun hc => by omega)]

/-- Witness for C7: a 1000-character job description is stored as its
first 200 characters plus `"..."` (203 characters), and a short
response is stored unchanged. -/
theorem record_interaction_excerpt_truncation_witness :
    ∃ entry : HistoryEntry,
      (record_interaction "ts" "Alice" "a@x.com" "resume"
        (String.mk (List.replicate 1000 'a')) "short resp" ⟨[], []⟩).history =
        ([] : List HistoryEntry) ++ [entry] ∧
      entry.job_description_excerpt =
        (String.mk (List.replicate 1000 'a')).take 200 ++ "..." ∧
      entry.job_description_excerpt.length = 203 ∧
      entry.ai_response_excerpt = "short resp" := by
  obtain ⟨entry, h0, h1, h2, h3, h4⟩ := record_interaction_excerpt_truncation
    "ts" "Alice" "a@x.com" "resume" (String.mk (List.replicate 1000 'a'))
    "short resp" ⟨[], []⟩
  have hlong : (String.mk (List.replicate 1000 'a')).length > 200 := by
    rw [String.length_mk, List.length_replicate]
    omega
  have hshort : ("short resp" : String).length ≤ 500 := by decide
  exact ⟨entry, h0, (h1 hlong).1, (h1 hlong).2, h4 hshort⟩

/-- **C8.** `clean_old_history` with `days_threshold = 100` drops
exactly the history entries whose parsed timestamp age exceeds the
threshold: in the concrete scenario of one 101-day-old and one
1-day-old entry it retains only the 1-day-old entry and returns `True`;
entries with a missing or unparsable timestamp are conservatively kept;
a malformed non-record entry is dropped from the cleaned list; when it
returns `False` the store is untouched and nothing is saved, and it
saves exactly when it signals cleanup. -/
theorem clean_old_history_pruning :
    clean_old_history
        (fun s => if s = "old" then some 0 else if s = "new" then some (100 * 86400) else none)
        (101 * 86400)
        [.dict (some "old") [("analysis_type", "resume")],
          .dict (some "new") [("analysis_type", "score")]]
        100 =
      ⟨true, [.dict (some "new") [("analysis_type", "score")]], true⟩ ∧
    (∀ (parseTs : String → Option Int) (nowSec threshold : Int)
        (history : List HistItem) (item : HistItem),
      item ∈ history →
      ((∃ fields, item = .dict none fields) ∨
        (∃ ts fields, item = .dict (some ts) fields ∧ parseTs ts = none)) →
      item ∈ (clean_history_scan parseTs nowSec threshold history).1) ∧
    (∀ (parseTs : String → Option Int) (nowSec threshold : Int)
        (history : List HistItem) (v : Int),
      HistItem.nonDict v ∉ (clean_history_scan parseTs nowSec threshold history).1) ∧
    (∀ (parseTs : String → Option Int) (nowSec threshold : Int)
        (history : List HistItem),
      (clean_old_history parseTs nowSec history threshold).returned = false →
      (clean_old_history parseTs nowSec history threshold).history = history ∧
      (clean_old_history parseTs nowSec history threshold).saved = false) ∧
    (∀ (parseTs : String → Option Int) (nowSec threshold : Int)
        (history : List HistItem),
      (clean_old_history parseTs nowSec history threshold).saved =
        (clean_old_history parseTs nowSec history threshold).returned) := by
  refine ⟨by decide, ?_, ?_, ?_, ?_⟩
  · intro parseTs nowSec threshold history
    induction history with
    | nil => intro item h; simp at h
    | cons head tail ih =>
      intro item hmem hshape
      rcases List.mem_cons.mp hmem with heq | htail
      · subst heq
        rcases hshape with ⟨fields, hf⟩ | ⟨ts, fields, hf, hp⟩
        · subst hf
          simp [clean_history_scan]
        · subst hf
          simp [clean_history_scan, hp]
      · have hin := ih item htail hshape
        rcases head with ⟨ts, fields⟩ | v
        · rcases ts with _ | ts
          · simp [clean_history_scan, hin]
          · rcases hp : parseTs ts with _ | tval
            · simp [clean_history_scan, hp, hin]
            · by_cases hage : Int.fdiv (nowSec - tval) 86400 ≤ threshold
              · simp [clean_history_scan, hp, hage, hin]
              · simp [clean_history_scan, hp, hage, hin]
        · simp [clean_history_scan, hin]
  · intro parseTs nowSec threshold history v
    induction history with
    | nil => simp [clean_history_scan]
    | cons head tail ih =>
      rcases head with ⟨ts, fields⟩ | w
      · rcases ts with _ | ts
        · simp [clean_history_scan, ih]
        · rcases hp : parseTs ts with _ | tval
          · simp [clean_history_scan, hp, ih]
          · by_cases hage : Int.fdiv (nowSec - tval) 86400 ≤ threshold
            · simp [clean_history_scan, hp, hage, ih]
            · simp [clean_history_scan, hp, hage, ih]
      · simp [clean_history_scan, ih]
  · intro parseTs nowSec threshold history
    simp only [clean_old_history]
    by_cases hs : (clean_history_scan parseTs nowSec threshold history).2 = true
    · rw [if_pos hs]
      intro hcontra
      exact absurd hcontra (by simp)
    · rw [if_neg hs]
      exact fun _ => ⟨rfl, rfl⟩
  · intro parseTs nowSec threshold history
    simp only [clean_old_history]
    by_cases hs : (clean_history_scan parseTs nowSec threshold history).2 = true
    · rw [if_pos hs]
    · rw [if_neg hs]

/-- Witness for C8: a missing-timestamp entry is kept, an unparsable
timestamp is kept, and a store whose only entry is fresh is left
untouched with nothing saved. -/
theorem clean_old_history_pruning_witness :
    HistItem.dict none [] ∈
      (clean_history_scan (fun _ => some 0) 0 100 [HistItem.dict none []]).1 ∧
    HistItem.dict (some "bad") [] ∈
      (clean_history_scan (fun _ => none) 0 100 [HistItem.dict (some "bad") []]).1 ∧
    (clean_old_history (fun _ => some 0) 0 [HistItem.dict (some "t") []] 100).history =
      [HistItem.dict (some "t") []] ∧
    (clean_old_history (fun _ => some 0) 0 [HistItem.dict (some "t") []] 100).saved = false := by
  have h1 := clean_old_history_pruning.2.1 (fun _ => some 0) 0 100
    [HistItem.dict none []] (HistItem.dict none []) (by decide) (Or.inl ⟨[], rfl⟩)
  have h2 := clean_old_history_pruning.2.1 (fun _ => none) 0 100
    [HistItem.dict (some "bad") []] (HistItem.dict (some "bad") [])
    (by decide) (Or.inr ⟨"bad", [], rfl, rfl⟩)
  have h3 := clean_old_history_pruning.2.2.2.1 (fun _ => some 0) 0 100
    [HistItem.dict (some "t") []] (by decide)
  exact ⟨h1, h2, h3.1, h3.2⟩

/-! ## Claim about the document renderer -/

/-- **C9 (evaluation).** The claim requires the temporary PDF file to
be removed on every exit path, success or failure; the code removes it
only on success.  With a failing HTML-to-PDF conversion the render call
returns `None` and the temporary file survives (`os.unlink` on
line 174 of `app/utils.py` is unreachable from the `except` handler);
with a succeeding conversion it is removed. -/
theorem generate_pdf_temp_file_leak_on_failure :
    (generate_pdf_from_markdown (fun s => s) (fun _ => none)
        "# Title\n- a\n- b" "Report" "ResumeFlow AI" "report.pdf"
        "2026-10-12 00:00:00").result = none ∧
    (generate_pdf_from_markdown (fun s => s) (fun _ => none)
        "# Title\n- a\n- b" "Report" "ResumeFlow AI" "report.pdf"
        "2026-10-12 00:00:00").tempFileRemains = true ∧
    (generate_pdf_from_markdown (fun s => s) (fun _ => some "%PDF-1.4")
        "# Title\n- a\n- b" "Report" "ResumeFlow AI" "report.pdf"
        "2026-10-12 00:00:00").tempFileRemains = false :=
  ⟨rfl, rfl, rfl⟩

end FlowResume
